import Mathlib

/-!
Verification development for the django-oscar-systempay gateway bridge.

The two source files under verification are systempay/facade.py and
systempay/views.py.  Collaborating modules of the same package
(gateway.py, forms.py, models.py, exceptions.py, utils.py) are not part
of the sources; where their behaviour matters it is either taken as a
parameter of the embedding (`GatewayEnv`) or modelled from the spec,
and each such definition says so in its doc comment.

Monetary amounts are modelled as exact rationals.  Python floats are
modelled exactly: `int(s) / 100.0` is IEEE-754 binary64 division with
round-to-nearest-even, and `Decimal(float)` keeps the exact binary
value, so `get_total_incl_tax` below computes the exact rational value
of the Decimal the Python code produces.
-/

attribute [local semireducible] Rat.mul Rat.inv Rat.add Rat.sub

namespace SystemPay

/-- Transaction record mode: MODE_SUBMIT is an outbound request our shop
generated, MODE_RETURN an inbound callback (browser return or server
notification). -/
inductive Mode
  | SUBMIT
  | RETURN
deriving DecidableEq

/-- The flat key-value payload exchanged with the gateway (Django POST
data).  Duplicate keys may occur; lookups take the last occurrence, as
QueryDict.get does. -/
abbrev Payload := List (String × String)

/-- Lookup with duplicate-key-last-wins semantics (QueryDict.get). -/
def pget (p : Payload) (k : String) : Option String :=
  p.reverse.lookup k

/-- Lookup with a default, as dict.get(k, d) in Python. -/
def pgetD (p : Payload) (k : String) (d : String) : String :=
  (pget p k).getD d

/-- Value of a list of decimal digit characters; none if empty or if a
non-digit occurs. -/
def digitsVal (cs : List Char) : Option Nat :=
  match cs with
  | [] => none
  | _ =>
    cs.foldl
      (fun acc c =>
        acc.bind (fun n => if c.isDigit then some (10 * n + (c.toNat - 48)) else none))
      (some 0)

/-- Model of Python int() applied to a string: an optional sign followed
by one or more decimal digits; any other shape raises ValueError,
modelled as none.  (CPython also strips surrounding whitespace and
allows underscore separators; the payload fields considered here do not
use either.) -/
def parseInt (s : String) : Option Int :=
  match s.toList with
  | [] => none
  | '-' :: cs => (digitsVal cs).map (fun n => -(n : Int))
  | '+' :: cs => (digitsVal cs).map (fun n => (n : Int))
  | cs => (digitsVal cs).map (fun n => (n : Int))

/-- Two to an integer power, as a rational. -/
def pow2 (e : Int) : Rat :=
  if 0 ≤ e then ((2 ^ e.toNat : Nat) : Rat) else 1 / ((2 ^ (- e).toNat : Nat) : Rat)

/-- Fuel-driven base-two logarithm on naturals (structural recursion on
the fuel, so that it evaluates inside the kernel). -/
def log2fuel (fuel : Nat) (n : Nat) : Nat :=
  match fuel with
  | 0 => 0
  | f + 1 => if 2 ≤ n then log2fuel f (n / 2) + 1 else 0

/-- Base-two logarithm on naturals: greatest k with 2 ^ k ≤ n (0 at 0). -/
def natLog2 (n : Nat) : Nat := log2fuel n n

/-- For q > 0, the exponent e with 2 ^ e ≤ q < 2 ^ (e + 1). -/
def binadeExp (q : Rat) : Int :=
  let e0 : Int := (natLog2 q.num.toNat : Int) - (natLog2 q.den : Int)
  if q < pow2 e0 then e0 - 1 else if pow2 (e0 + 1) ≤ q then e0 + 1 else e0

/-- Round a positive rational to the nearest integer, ties to even. -/
def roundHalfEvenPos (q : Rat) : Int :=
  let f : Int := q.num / (q.den : Int)
  let r : Rat := q - (f : Rat)
  if r < 1 / 2 then f
  else if 1 / 2 < r then f + 1
  else if f % 2 = 0 then f else f + 1

/-- Round a positive rational to the nearest IEEE-754 binary64 value
(53-bit significand), as an exact rational. -/
def roundDoublePos (q : Rat) : Rat :=
  let e : Int := binadeExp q
  ((roundHalfEvenPos (q * pow2 (52 - e)) : Int) : Rat) * pow2 (e - 52)

/-- Round a rational to the nearest IEEE-754 binary64 value, as an exact
rational (normal range; payment amounts never reach the subnormal or
overflow ranges). -/
def roundDouble (q : Rat) : Rat :=
  if 0 < q then roundDoublePos q
  else if q < 0 then - roundDoublePos (- q)
  else 0

/-- Embedding of Facade.get_total_incl_tax (facade.py lines 38-39):
D(int(form.data.get(vads_amount, zero)) / 100.0).  int() may raise
ValueError, modelled as none; the division is binary64 float division;
Decimal(float) keeps the exact binary value, modelled by roundDouble. -/
def get_total_incl_tax (p : Payload) : Option Rat :=
  (parseInt (pgetD p "vads_amount" "0")).map (fun n => roundDouble ((n : Rat) / 100))

/-- Embedding of Facade.get_order_number (facade.py line 35-36). -/
def get_order_number (p : Payload) : Option String :=
  pget p "vads_order_id"

/-- Embedding of Facade.get_extra_result (facade.py line 44-45). -/
def get_extra_result (p : Payload) : Option String :=
  pget p "vads_extra_result"

/-- The transaction record persisted by SystemPayTransaction.objects.create
in Facade.save_txn (facade.py lines 182-205).  The id and timestamp
columns are represented by the position of the record in the store
(records are appended in creation order). -/
structure SystemPayTransaction where
  mode : Mode
  operation_type : Option String
  trans_id : Option String
  trans_date : Option String
  order_number : Option String
  amount : Rat
  auth_result : Option String
  result : Option String
  raw_request : Payload
  error_message : String
deriving DecidableEq

/-- Embedding of Facade.save_txn (facade.py lines 182-205): build the
record from the payload.  Persisting is modelled by appending the
record to the store at the call site. -/
def save_txn (order_number : Option String) (amount : Rat) (data : Payload)
    (mode : Mode) : SystemPayTransaction :=
  { mode := mode
    operation_type := pget data "vads_operation_type"
    trans_id := pget data "vads_trans_id"
    trans_date := pget data "vads_trans_date"
    order_number := order_number
    amount := amount
    auth_result := pget data "vads_auth_result"
    result := pget data "vads_result"
    raw_request := data
    error_message := "" }

/-- Modelled from the spec: the provider success result code.  The code
table is provider configuration (spec section 6); the success code of
the provider is written 00. -/
def successCode : String := "00"

/-- Modelled from the spec: SystemPayTransaction.is_complete lives in
models.py, which is not among the sources; the spec decision table maps
the success code to Complete and every other code to a failure
outcome, so a record is complete exactly when its result field holds
the success code. -/
def SystemPayTransaction.is_complete (t : SystemPayTransaction) : Bool :=
  t.result = some successCode

/-- The Python exceptions that can cross the boundaries of the embedded
functions.  formNotValid is SystemPayFormNotValid; the three gateway
errors are SystemPayGatewayPaymentRejected, SystemPayGatewayParamError
and SystemPayGatewayServerError; runtimeError is the RuntimeError that a
bare Python raise statement produces when no exception is active;
valueError is the ValueError of int() on a malformed string;
oscarPaymentError is the order pipeline PaymentError raised by the IPN
view; orderDoesNotExist and http404 are the Django lookup errors of the
views. -/
inductive PyExc
  | formNotValid (msg : String)
  | gatewayPaymentRejected (msg : String)
  | gatewayParamError (code : Option String)
  | gatewayServerError (msg : String)
  | runtimeError
  | valueError
  | oscarPaymentError (msg : String)
  | orderDoesNotExist
  | http404
deriving DecidableEq

/-- Python str interpolation of an optional value: None prints as None. -/
def optStr : Option String → String
  | none => "None"
  | some s => s

/-- Behaviour of the collaborating modules that are not among the
sources, taken as parameters of the embedding: formValid and formErrors
stand for the Django return form validation of forms.py and the error
printer of utils.py; sigValid, providedSig and computeSig stand for the
signature engine of gateway.py.  Every theorem about the facade control
flow is proved for an arbitrary such environment. -/
structure GatewayEnv where
  formValid : Payload → Bool
  formErrors : Payload → String
  sigValid : Payload → Bool
  providedSig : Payload → String
  computeSig : Payload → String

/-- The store of persisted transaction records, in creation order. -/
abbrev Store := List SystemPayTransaction

/-- The error message attached to the record on a signature mismatch
(facade.py lines 136-140); it interpolates the received and the
recomputed signature into a fixed non-empty template. -/
def sigErrorMessage (env : GatewayEnv) (p : Payload) : String :=
  "Signature not valid. Get " ++ env.providedSig p ++ " instead of " ++ env.computeSig p

/-- Embedding of the result-code dispatch of Facade.handle_request
(facade.py lines 146-164) for a record that is not complete.  The
result 17 branch is a bare Python raise statement; with no active
exception Python raises RuntimeError, modelled as runtimeError.  A
missing result field falls through to the final branch and prints as
None. -/
def classify_result (result : Option String) (extra : Option String) : PyExc :=
  if result = some "02" then PyExc.gatewayPaymentRejected "The shop must contact the bank"
  else if result = some "05" then PyExc.gatewayPaymentRejected "The payment has been rejected"
  else if result = some "30" then PyExc.gatewayParamError extra
  else if result = some "96" then PyExc.gatewayServerError "Technical error while processing the payment"
  else if result = some "17" then PyExc.runtimeError
  else PyExc.gatewayServerError ("Unknown error: " ++ optStr result)

/-- Embedding of Facade.handle_request (facade.py lines 102-166).
The steps, in source order: parse the amount (int() may raise
ValueError before anything is persisted), persist a RETURN record,
check form validity, check the signature, then either classify a
non-complete result into a raised error or return the record.  The
mutation of error_message on the already persisted record is modelled
by appending the final state of the record. -/
def handle_request (env : GatewayEnv) (p : Payload) (store : Store) :
    Store × Except PyExc SystemPayTransaction :=
  match get_total_incl_tax p with
  | none => (store, Except.error PyExc.valueError)
  | some amt =>
    let txn := save_txn (get_order_number p) amt p Mode.RETURN
    if env.formValid p = false then
      (store ++ [{ txn with error_message := env.formErrors p }],
       Except.error (PyExc.formNotValid
         ("The data received are not complete: " ++ env.formErrors p)))
    else if env.sigValid p = false then
      (store ++ [{ txn with error_message := sigErrorMessage env p }],
       Except.error (PyExc.formNotValid
         "Incorrect signature. Check SystemPayTransaction for more details"))
    else if txn.is_complete = false then
      (store ++ [txn], Except.error (classify_result txn.result (get_extra_result p)))
    else
      (store ++ [txn], Except.ok txn)

instance {α β : Type} [DecidableEq α] [DecidableEq β] : DecidableEq (Except α β) :=
  fun a b =>
    match a, b with
    | Except.ok x, Except.ok y =>
      decidable_of_iff (x = y) (by simp)
    | Except.error x, Except.error y =>
      decidable_of_iff (x = y) (by simp)
    | Except.ok _, Except.error _ => Decidable.isFalse (by simp)
    | Except.error _, Except.ok _ => Decidable.isFalse (by simp)

instance : DecidableEq Unit := fun a b => Decidable.isTrue (by cases a; cases b; rfl)

/-- A concrete environment whose validators accept every payload, used
to evaluate the embedding on concrete inputs. -/
def trivEnv : GatewayEnv :=
  { formValid := fun _ => true
    formErrors := fun _ => ""
    sigValid := fun _ => true
    providedSig := fun _ => ""
    computeSig := fun _ => "" }

/-- Modelled from the spec: the DEBIT operation type constant of
SystemPayTransaction (models.py is not among the sources; the spec data
model lists operation type DEBIT / CREDIT / other). -/
def OPERATION_TYPE_DEBIT : String := "DEBIT"

/-- Modelled from the spec: the CREDIT operation type constant of
SystemPayTransaction. -/
def OPERATION_TYPE_CREDIT : String := "CREDIT"

/-- A payment source added by the IPN view (oscar Source row): the
operation applied, the amount, and the transaction reference. -/
structure SourceRec where
  operation : String
  amount : Rat
  reference : Option String
deriving DecidableEq

/-- State visible to the IPN endpoint: the transaction store, the
numbers of the stored orders, the payment sources added so far and the
error log. -/
structure IPNState where
  txns : Store
  orders : List String
  sources : List SourceRec
  log : List String
deriving DecidableEq

/-- Embedding of HandleIPN.handle_ipn (views.py lines 247-291).  The
try block runs handle_request, looks the order up, and adds a payment
source for a DEBIT or CREDIT operation type; an unknown operation type
raises the order pipeline PaymentError.  The except clauses re-raise
every SystemPay error and catch Order.DoesNotExist, which is only
logged.  Errors raised by handle_request (SystemPay errors, the bare
raise RuntimeError, the int() ValueError) match no except clause other
than the re-raising one and so propagate unchanged. -/
def handle_ipn (env : GatewayEnv) (p : Payload) (st : IPNState) :
    IPNState × Except PyExc Unit :=
  match handle_request env p st.txns with
  | (txns2, Except.error e) => ({ st with txns := txns2 }, Except.error e)
  | (txns2, Except.ok txn) =>
    let st2 := { st with txns := txns2 }
    match txn.order_number with
    | none =>
      ({ st2 with log := st2.log ++ ["Unable to retrieve Order None"] }, Except.ok ())
    | some n =>
      if st2.orders.contains n = false then
        ({ st2 with log := st2.log ++ ["Unable to retrieve Order " ++ n] }, Except.ok ())
      else if txn.operation_type = some OPERATION_TYPE_DEBIT then
        ({ st2 with sources := st2.sources ++
            [{ operation := OPERATION_TYPE_DEBIT, amount := txn.amount,
               reference := txn.trans_id }] }, Except.ok ())
      else if txn.operation_type = some OPERATION_TYPE_CREDIT then
        ({ st2 with sources := st2.sources ++
            [{ operation := OPERATION_TYPE_CREDIT, amount := txn.amount,
               reference := txn.trans_id }] }, Except.ok ())
      else
        (st2, Except.error (PyExc.oscarPaymentError
          ("Unknown operation type " ++ optStr txn.operation_type)))

/-- HTTP response of the IPN endpoint: plain 200, 400 with a message,
or an exception escaping the view. -/
inductive HttpResp
  | ok200
  | badRequest (msg : String)
  | uncaught (e : PyExc)
deriving DecidableEq

/-- Embedding of HandleIPN.post (views.py lines 240-245): an order
pipeline PaymentError becomes HTTP 400 with the error message; every
other exception escapes the view; otherwise plain 200.  Modelled from
the spec: exceptions.py is not among the sources, and the SystemPay
error taxonomy of spec section 7 is its own hierarchy, so SystemPay
errors do not match the PaymentError clause and escape the view. -/
def ipn_post (env : GatewayEnv) (p : Payload) (st : IPNState) : IPNState × HttpResp :=
  match handle_ipn env p st with
  | (st2, Except.ok _) => (st2, HttpResp.ok200)
  | (st2, Except.error (PyExc.oscarPaymentError m)) => (st2, HttpResp.badRequest m)
  | (st2, Except.error e) => (st2, HttpResp.uncaught e)

/-- An oscar order as far as the secure redirect view reads it. -/
structure OrderRec where
  number : String
  id : Nat
  total_incl_tax : Rat
deriving DecidableEq

/-- Request data of the secure redirect view: whether the requesting
user is a superuser, and the optional GET parameters. -/
structure RedirectReq where
  superuser : Bool
  get_order_number : Option String
  get_order_id : Option Nat
deriving DecidableEq

/-- Order.objects.get(number=n): the matching order or DoesNotExist. -/
def find_by_number (orders : List OrderRec) (n : String) : Except PyExc OrderRec :=
  match orders.find? (fun o => o.number == n) with
  | some o => Except.ok o
  | none => Except.error PyExc.orderDoesNotExist

/-- Order.objects.get(id=i): the matching order or DoesNotExist. -/
def find_by_id (orders : List OrderRec) (i : Nat) : Except PyExc OrderRec :=
  match orders.find? (fun o => o.id == i) with
  | some o => Except.ok o
  | none => Except.error PyExc.orderDoesNotExist

/-- The session branch of SecureRedirectView.get_object (views.py lines
63-68): load the order whose id the checkout session stores, or raise
Http404. -/
def session_lookup (session : Option Nat) (orders : List OrderRec) :
    Except PyExc OrderRec :=
  match session with
  | some pk => find_by_id orders pk
  | none => Except.error PyExc.http404

/-- Embedding of SecureRedirectView.get_object (views.py lines 50-71):
a superuser may force an order by number or id through GET parameters;
otherwise the order comes from the checkout session. -/
def get_object (req : RedirectReq) (session : Option Nat)
    (orders : List OrderRec) : Except PyExc OrderRec :=
  if req.superuser then
    match req.get_order_number with
    | some n => find_by_number orders n
    | none =>
      match req.get_order_id with
      | some i => find_by_id orders i
      | none => session_lookup session orders
  else session_lookup session orders

/-- Embedding of SecureRedirectView.get (views.py lines 80-89) together
with Facade.save_submit_txn (facade.py lines 168-173).  sf stands for
gateway.get_submit_form as used by
Facade.get_submit_form_populated_with_order (gateway.py is not among
the sources): it produces the signed submit form data for the order.
On success the view unconditionally persists a SUBMIT record and then
flushes the checkout session.  Returns the new store, the new session
and the outcome. -/
def secure_redirect_get (sf : OrderRec → Payload) (req : RedirectReq)
    (session : Option Nat) (orders : List OrderRec) (store : Store) :
    Store × Option Nat × Except PyExc OrderRec :=
  match get_object req session orders with
  | Except.error e => (store, session, Except.error e)
  | Except.ok o =>
    (store ++ [save_txn (some o.number) o.total_incl_tax (sf o) Mode.SUBMIT],
     none, Except.ok o)

/-- Number of SUBMIT records for an order number in the store. -/
def countSubmit (store : Store) (n : String) : Nat :=
  (store.filter
    (fun t => decide (t.mode = Mode.SUBMIT ∧ t.order_number = some n))).length

/-- The user-facing messages of ReturnResponseView.get_redirect_url
(views.py lines 185-203).  All three are fixed localized texts with no
interpolated data, embedded as a closed enumeration: no transaction
field, error detail or signature can flow into them. -/
inductive UserMessage
  | pendingConfirmation
  | paymentValidated
  | paymentRejected
deriving DecidableEq

/-- The query of ReturnResponseView.get_redirect_url (views.py lines
180-183): latest RETURN record for the order number.  Records are
appended in creation order, so latest-by-date_created is the last
matching record. -/
def latest_return (store : Store) (n : String) : Option SystemPayTransaction :=
  (store.filter
    (fun t => decide (t.mode = Mode.RETURN ∧ t.order_number = some n))).getLast?

/-- Embedding of ReturnResponseView.get_redirect_url (views.py lines
176-206) for a resolved order: choose the user message from the latest
RETURN record (pending text when none exists, success or rejection
text otherwise) and redirect to the thank-you page. -/
def return_redirect_url (store : Store) (n : String) : UserMessage × String :=
  match latest_return store n with
  | none => (UserMessage.pendingConfirmation, "checkout:thank-you")
  | some t =>
    if t.is_complete then (UserMessage.paymentValidated, "checkout:thank-you")
    else (UserMessage.paymentRejected, "checkout:thank-you")

/-- A run of handle_request is trusted when it returns the record or
raises one of the result-code errors of the classifier; form validation
errors, signature errors and the int() ValueError are the untrusted
outcomes. -/
def trustedResult : Except PyExc SystemPayTransaction → Bool
  | Except.ok _ => true
  | Except.error (PyExc.gatewayPaymentRejected _) => true
  | Except.error (PyExc.gatewayParamError _) => true
  | Except.error (PyExc.gatewayServerError _) => true
  | Except.error PyExc.runtimeError => true
  | Except.error _ => false

/-- The exception raised by a run, if any. -/
def raisedError : Except PyExc SystemPayTransaction → Option PyExc
  | Except.error e => some e
  | Except.ok _ => none

/-- Whether an exception is the SystemPayFormNotValid type. -/
def isFormNotValid : PyExc → Bool
  | PyExc.formNotValid _ => true
  | _ => false

/-- A concrete environment whose form validation accepts and whose
signature check rejects every payload. -/
def badSigEnv : GatewayEnv :=
  { formValid := fun _ => true
    formErrors := fun _ => ""
    sigValid := fun _ => false
    providedSig := fun _ => "tampered"
    computeSig := fun _ => "expected" }

/-- A concrete environment whose form validation rejects every
payload. -/
def badFormEnv : GatewayEnv :=
  { formValid := fun _ => false
    formErrors := fun _ => "vads_trans_id missing"
    sigValid := fun _ => true
    providedSig := fun _ => ""
    computeSig := fun _ => "" }

/-- The empty IPN state. -/
def ipnSt0 : IPNState := { txns := [], orders := [], sources := [], log := [] }

/-- A concrete order for counterexample runs. -/
def demoOrder : OrderRec := { number := "ORD-1", id := 1, total_incl_tax := 10 }

/-- A concrete submit form builder for counterexample runs. -/
def demoSF : OrderRec → Payload := fun o => [("vads_order_id", o.number)]

/-- A concrete superuser request forcing order ORD-1 by number. -/
def demoReq : RedirectReq :=
  { superuser := true, get_order_number := some "ORD-1", get_order_id := none }

/-- Shape of handle_request once the amount parses: the four branches
of the source in order (form validity, signature, completeness). -/
theorem handle_request_some (env : GatewayEnv) (p : Payload) (store : Store)
    (amt : Rat) (h : get_total_incl_tax p = some amt) :
    handle_request env p store =
      (if env.formValid p = false then
         (store ++ [{ save_txn (get_order_number p) amt p Mode.RETURN with
             error_message := env.formErrors p }],
          Except.error (PyExc.formNotValid
            ("The data received are not complete: " ++ env.formErrors p)))
       else if env.sigValid p = false then
         (store ++ [{ save_txn (get_order_number p) amt p Mode.RETURN with
             error_message := sigErrorMessage env p }],
          Except.error (PyExc.formNotValid
            "Incorrect signature. Check SystemPayTransaction for more details"))
       else if (save_txn (get_order_number p) amt p Mode.RETURN).is_complete = false then
         (store ++ [save_txn (get_order_number p) amt p Mode.RETURN],
          Except.error (classify_result
            (save_txn (get_order_number p) amt p Mode.RETURN).result
            (get_extra_result p)))
       else
         (store ++ [save_txn (get_order_number p) amt p Mode.RETURN],
          Except.ok (save_txn (get_order_number p) amt p Mode.RETURN))) := by
  unfold handle_request
  rw [h]

/-- Shape of handle_request when int() raises on the amount field:
nothing is persisted and the ValueError propagates. -/
theorem handle_request_none (env : GatewayEnv) (p : Payload) (store : Store)
    (h : get_total_incl_tax p = none) :
    handle_request env p store = (store, Except.error PyExc.valueError) := by
  unfold handle_request
  rw [h]

/-- C1: the result classifier of handle_request is a total function of
the result code and matches the decision table: for a record that is
not complete, code 02 fails with PaymentRejected (contact bank), 05
with PaymentRejected, 30 with ParamError carrying the extra-result
code, 96 with ServerError, and every code outside the documented table
(02, 05, 30, 96, 17) with ServerError naming the unknown code; and no
run of handle_request ever returns a record that is not complete, so no
code outside the table is classified as Complete. -/
theorem C1_result_classifier_table (env : GatewayEnv) (p : Payload)
    (store : Store) (txn : SystemPayTransaction) (extra r : Option String)
    (hr : r ∉ [some "02", some "05", some "30", some "96", some "17"])
    (hok : (handle_request env p store).2 = Except.ok txn) :
    classify_result (some "02") extra
      = PyExc.gatewayPaymentRejected "The shop must contact the bank"
    ∧ classify_result (some "05") extra
      = PyExc.gatewayPaymentRejected "The payment has been rejected"
    ∧ classify_result (some "30") extra = PyExc.gatewayParamError extra
    ∧ classify_result (some "96") extra
      = PyExc.gatewayServerError "Technical error while processing the payment"
    ∧ classify_result r extra
      = PyExc.gatewayServerError ("Unknown error: " ++ optStr r)
    ∧ txn.is_complete = true := by
  refine ⟨by simp [classify_result], by simp [classify_result],
    by simp [classify_result], by simp [classify_result], ?_, ?_⟩
  · simp only [List.mem_cons, List.not_mem_nil, or_false] at hr
    push_neg at hr
    obtain ⟨h1, h2, h3, h4, h5⟩ := hr
    simp [classify_result, h1, h2, h3, h4, h5]
  · cases hg : get_total_incl_tax p with
    | none =>
      rw [handle_request_none env p store hg] at hok
      simp at hok
    | some amt =>
      rw [handle_request_some env p store amt hg] at hok
      by_cases hf : env.formValid p = false
      · simp [hf] at hok
      · by_cases hs : env.sigValid p = false
        · simp [hf, hs] at hok
        · by_cases hc :
            (save_txn (get_order_number p) amt p Mode.RETURN).is_complete = false
          · simp [hf, hs, hc] at hok
          · simp only [if_neg hf, if_neg hs, if_neg hc, Except.ok.injEq] at hok
            rw [← hok]
            simpa using hc

/-- C2: handle_request verifies the signature before the payment result
is trusted: whenever a run returns the record or raises one of the
result-code errors of the classifier, the signature check of that run
succeeded; no path reaches classification or returns a record with an
unverified signature. -/
theorem C2_signature_verified_before_trust (env : GatewayEnv) (p : Payload)
    (store : Store)
    (h : trustedResult (handle_request env p store).2 = true) :
    env.sigValid p = true := by
  cases hg : get_total_incl_tax p with
  | none =>
    rw [handle_request_none env p store hg] at h
    simp [trustedResult] at h
  | some amt =>
    rw [handle_request_some env p store amt hg] at h
    by_cases hf : env.formValid p = false
    · simp [hf, trustedResult] at h
    · by_cases hs : env.sigValid p = false
      · simp [hf, hs, trustedResult] at h
      · simpa using hs

/-- Witness for C1 at a concrete complete run and the unknown code 99. -/
theorem C1_result_classifier_table_witness :
    classify_result (some "02") (some "42")
      = PyExc.gatewayPaymentRejected "The shop must contact the bank"
    ∧ classify_result (some "05") (some "42")
      = PyExc.gatewayPaymentRejected "The payment has been rejected"
    ∧ classify_result (some "30") (some "42") = PyExc.gatewayParamError (some "42")
    ∧ classify_result (some "96") (some "42")
      = PyExc.gatewayServerError "Technical error while processing the payment"
    ∧ classify_result (some "99") (some "42")
      = PyExc.gatewayServerError ("Unknown error: " ++ optStr (some "99"))
    ∧ (save_txn none 0 [("vads_result", "00")] Mode.RETURN).is_complete = true :=
  C1_result_classifier_table trivEnv [("vads_result", "00")] []
    (save_txn none 0 [("vads_result", "00")] Mode.RETURN) (some "42") (some "99")
    (by decide) (by decide)

/-- Witness for C2 at a concrete complete run. -/
theorem C2_signature_verified_before_trust_witness :
    trivEnv.sigValid [("vads_result", "00")] = true :=
  C2_signature_verified_before_trust trivEnv [("vads_result", "00")] [] (by decide)

/-- C3 counterexample: a payload whose vads_amount value is not an
integer string makes int() raise before anything is persisted:
handle_request fails with ValueError and the store stays empty, so no
RETURN record exists after the failure, refuting audit-first
persistence for arbitrary payloads. -/
theorem C3_counterexample :
    handle_request trivEnv [("vads_amount", "abc")] []
      = ([], Except.error PyExc.valueError) := by decide

/-- C3 amended: audit-first persistence holds for every payload whose
vads_amount value (the string 0 when the key is absent) parses as an
integer: before any validation handle_request appends exactly one
record to the store, a RETURN-mode record, on every outcome. -/
theorem C3_audit_first (env : GatewayEnv) (p : Payload) (store : Store)
    (n : Int) (h : parseInt (pgetD p "vads_amount" "0") = some n) :
    (handle_request env p store).1.length = store.length + 1
    ∧ ((handle_request env p store).1.getLast?).map (fun t => t.mode)
      = some Mode.RETURN := by
  have hg : get_total_incl_tax p = some (roundDouble ((n : Rat) / 100)) := by
    unfold get_total_incl_tax
    rw [h]
    rfl
  rw [handle_request_some env p store _ hg]
  by_cases hf : env.formValid p = false
  · rw [if_pos hf]
    simp [save_txn, List.getLast?_concat]
  · rw [if_neg hf]
    by_cases hs : env.sigValid p = false
    · rw [if_pos hs]
      simp [save_txn, List.getLast?_concat]
    · rw [if_neg hs]
      split
      · simp [save_txn, List.getLast?_concat]
      · simp [save_txn, List.getLast?_concat]

/-- Witness for C3 amended at a concrete payload. -/
theorem C3_audit_first_witness :
    (handle_request trivEnv [("vads_amount", "2599")] []).1.length
      = ([] : Store).length + 1
    ∧ ((handle_request trivEnv [("vads_amount", "2599")] []).1.getLast?).map
        (fun t => t.mode) = some Mode.RETURN :=
  C3_audit_first trivEnv [("vads_amount", "2599")] [] 2599 (by decide)

/-- C4 counterexample: the signature-mismatch run raises the
SystemPayFormNotValid exception, exactly the error type the
malformed-fields run raises; no distinct SignatureInvalid error type
exists in the code, refuting the claimed distinction. -/
theorem C4_counterexample :
    (raisedError (handle_request badSigEnv [("vads_amount", "2599")] []).2).map
      isFormNotValid = some true
    ∧ (raisedError (handle_request badFormEnv [("vads_amount", "2599")] []).2).map
      isFormNotValid = some true := by
  constructor <;> decide

/-- C4 amended: for every callback whose amount parses and whose form
validates but whose signature does not verify, handle_request attaches
the non-empty signature error message to the persisted RETURN record
and fails with SystemPayFormNotValid, the same error type used for
malformed fields, and the IPN endpoint adds no payment source. -/
theorem C4_sig_invalid (env : GatewayEnv) (p : Payload) (st : IPNState)
    (n : Int) (h : parseInt (pgetD p "vads_amount" "0") = some n)
    (hf : env.formValid p = true) (hs : env.sigValid p = false) :
    ((handle_request env p st.txns).1.getLast?).map (fun t => t.error_message)
      = some (sigErrorMessage env p)
    ∧ sigErrorMessage env p ≠ ""
    ∧ (handle_request env p st.txns).2
      = Except.error (PyExc.formNotValid
          "Incorrect signature. Check SystemPayTransaction for more details")
    ∧ (handle_ipn env p st).1.sources = st.sources := by
  have hg : get_total_incl_tax p = some (roundDouble ((n : Rat) / 100)) := by
    unfold get_total_incl_tax
    rw [h]
    rfl
  have hr := handle_request_some env p st.txns _ hg
  rw [if_neg (by simp [hf]), if_pos hs] at hr
  have hne : sigErrorMessage env p ≠ "" := by
    intro hemp
    have hlen := congrArg String.length hemp
    rw [sigErrorMessage] at hlen
    simp only [String.length_append] at hlen
    have h25 : ("Signature not valid. Get " : String).length = 25 := by decide
    have h12 : (" instead of " : String).length = 12 := by decide
    have h0 : ("" : String).length = 0 := by decide
    rw [h25, h12, h0] at hlen
    omega
  refine ⟨?_, hne, ?_, ?_⟩
  · rw [hr]
    simp
  · rw [hr]
  · unfold handle_ipn
    rw [hr]

/-- Witness for C4 amended at a concrete tampered callback. -/
theorem C4_sig_invalid_witness :
    ((handle_request badSigEnv [("vads_amount", "2599")] ipnSt0.txns).1.getLast?).map
      (fun t => t.error_message)
      = some (sigErrorMessage badSigEnv [("vads_amount", "2599")])
    ∧ sigErrorMessage badSigEnv [("vads_amount", "2599")] ≠ ""
    ∧ (handle_request badSigEnv [("vads_amount", "2599")] ipnSt0.txns).2
      = Except.error (PyExc.formNotValid
          "Incorrect signature. Check SystemPayTransaction for more details")
    ∧ (handle_ipn badSigEnv [("vads_amount", "2599")] ipnSt0).1.sources
      = ipnSt0.sources :=
  C4_sig_invalid badSigEnv [("vads_amount", "2599")] ipnSt0 2599
    (by decide) (by decide) (by decide)

/-- C5: for the minor-unit amount string 2599 the derived amount is not
exactly 25.99.  int(2599)/100.0 is binary64 float division and
Decimal(float) keeps the exact binary value, so get_total_incl_tax
yields 7315534644709949/2^48 = 25.98999999999999843..., slightly below
2599/100, and the record persisted by handle_request carries the same
artifact. -/
theorem C5_amount_float_artifact :
    get_total_incl_tax [("vads_amount", "2599")]
      = some ((7315534644709949 : Rat) / 281474976710656)
    ∧ get_total_incl_tax [("vads_amount", "2599")]
      ≠ some ((2599 : Rat) / 100)
    ∧ ((handle_request trivEnv
          [("vads_amount", "2599"), ("vads_result", "00")] []).1.getLast?).map
        (fun t => t.amount)
      = some ((7315534644709949 : Rat) / 281474976710656) := by
  refine ⟨by decide, by decide, by decide⟩

/-- C6: on result code 17 with a valid form and signature and a record
that is not complete, the source executes a bare raise statement; no
exception is being handled at that point, so Python raises RuntimeError
(no active exception to re-raise) rather than propagating any
underlying error: there is no underlying error in scope on this path.
Evaluation of the embedding at such a callback. -/
theorem C6_result17_bare_raise :
    handle_request trivEnv [("vads_result", "17")] []
      = ([save_txn none 0 [("vads_result", "17")] Mode.RETURN],
         Except.error PyExc.runtimeError) := by decide

/-- C7 counterexample: rendering the secure redirect page twice for the
same order (a superuser forcing order ORD-1 by number can render the
page repeatedly) persists two SUBMIT records for that order: the view
creates a new SUBMIT record on every render and the store does not
deduplicate, refuting at-most-one-SUBMIT-per-order. -/
theorem C7_counterexample :
    countSubmit
      (secure_redirect_get demoSF demoReq (some 1) [demoOrder]
        (secure_redirect_get demoSF demoReq (some 1) [demoOrder] []).1).1
      "ORD-1" = 2 := by decide

/-- C7 amended: every successful render of the secure redirect page
appends exactly one SUBMIT record for the rendered order and flushes
the checkout session, so repeated rendering creates one SUBMIT record
per render rather than at most one per order; a non-superuser request
arriving after the flush fails with Http404 and appends nothing. -/
theorem C7_submit_per_render (sf : OrderRec → Payload) (req req2 : RedirectReq)
    (session : Option Nat) (orders : List OrderRec) (store : Store)
    (o : OrderRec)
    (h : get_object req session orders = Except.ok o)
    (h2 : req2.superuser = false) :
    countSubmit (secure_redirect_get sf req session orders store).1 o.number
      = countSubmit store o.number + 1
    ∧ (secure_redirect_get sf req session orders store).2.1 = none
    ∧ secure_redirect_get sf req2 none orders
        (secure_redirect_get sf req session orders store).1
      = ((secure_redirect_get sf req session orders store).1, none,
         Except.error PyExc.http404) := by
  have hrun : secure_redirect_get sf req session orders store
      = (store ++ [save_txn (some o.number) o.total_incl_tax (sf o) Mode.SUBMIT],
         none, Except.ok o) := by
    unfold secure_redirect_get
    rw [h]
  refine ⟨?_, by rw [hrun], ?_⟩
  · rw [hrun]
    simp [countSubmit, List.filter_append, save_txn]
  · rw [hrun]
    unfold secure_redirect_get get_object
    rw [if_neg (by simp [h2])]
    rfl

/-- Witness for C7 amended at a concrete order and store. -/
theorem C7_submit_per_render_witness :
    countSubmit (secure_redirect_get demoSF demoReq (some 1) [demoOrder] []).1
      demoOrder.number = countSubmit [] demoOrder.number + 1
    ∧ (secure_redirect_get demoSF demoReq (some 1) [demoOrder] []).2.1 = none
    ∧ secure_redirect_get demoSF
        { superuser := false, get_order_number := none, get_order_id := none }
        none [demoOrder]
        (secure_redirect_get demoSF demoReq (some 1) [demoOrder] []).1
      = ((secure_redirect_get demoSF demoReq (some 1) [demoOrder] []).1, none,
         Except.error PyExc.http404) :=
  C7_submit_per_render demoSF demoReq
    { superuser := false, get_order_number := none, get_order_id := none }
    (some 1) [demoOrder] [] demoOrder (by decide) (by decide)

/-- C8 counterexample: a notification whose order reference matches no
stored order but whose result code is the failure code 05 never
reaches the order lookup: handle_request raises, the endpoint logs no
lookup failure and the response is the escaping exception rather than
the success acknowledgment, refuting the claim for arbitrary callbacks
with an unknown order reference. -/
theorem C8_counterexample :
    (ipn_post trivEnv [("vads_order_id", "ORD-9"), ("vads_result", "05")] ipnSt0).2
      = HttpResp.uncaught
          (PyExc.gatewayPaymentRejected "The payment has been rejected")
    ∧ (ipn_post trivEnv
        [("vads_order_id", "ORD-9"), ("vads_result", "05")] ipnSt0).1.log
      = [] := by
  constructor <;> decide

/-- C8 amended: for every notification that handle_request accepts
(record returned) whose order reference matches no stored order, the
endpoint logs the lookup failure, adds no payment source, and still
acknowledges with the plain success response. -/
theorem C8_unknown_order_acknowledged (env : GatewayEnv) (p : Payload)
    (st : IPNState) (txn : SystemPayTransaction) (n : String)
    (h : (handle_request env p st.txns).2 = Except.ok txn)
    (hn : txn.order_number = some n)
    (ho : st.orders.contains n = false) :
    (ipn_post env p st).2 = HttpResp.ok200
    ∧ (ipn_post env p st).1.sources = st.sources
    ∧ (ipn_post env p st).1.log = st.log ++ ["Unable to retrieve Order " ++ n] := by
  rcases hh : handle_request env p st.txns with ⟨s2, r⟩
  have hr : r = Except.ok txn := by
    rw [hh] at h
    exact h
  subst hr
  unfold ipn_post handle_ipn
  rw [hh]
  dsimp only
  rw [hn]
  have ho2 : ¬ (n ∈ st.orders) := by simpa using ho
  simp [ho2]

/-- Witness for C8 amended at a concrete complete callback for an
unknown order. -/
theorem C8_unknown_order_acknowledged_witness :
    (ipn_post trivEnv [("vads_order_id", "ORD-9"), ("vads_result", "00")] ipnSt0).2
      = HttpResp.ok200
    ∧ (ipn_post trivEnv
        [("vads_order_id", "ORD-9"), ("vads_result", "00")] ipnSt0).1.sources
      = ipnSt0.sources
    ∧ (ipn_post trivEnv
        [("vads_order_id", "ORD-9"), ("vads_result", "00")] ipnSt0).1.log
      = ipnSt0.log ++ ["Unable to retrieve Order " ++ "ORD-9"] :=
  C8_unknown_order_acknowledged trivEnv
    [("vads_order_id", "ORD-9"), ("vads_result", "00")] ipnSt0
    (save_txn (some "ORD-9") 0
      [("vads_order_id", "ORD-9"), ("vads_result", "00")] Mode.RETURN)
    "ORD-9" (by decide) (by decide) (by decide)

/-- C9: when no RETURN record exists yet for the order, the return view
produces exactly the generic pending-confirmation message and the
thank-you redirect: a constant outcome, one of three fixed texts with
no interpolated data, so no internal error detail and no computed
signature can reach the end user. -/
theorem C9_pending_message (store : Store) (n : String)
    (h : latest_return store n = none) :
    return_redirect_url store n
      = (UserMessage.pendingConfirmation, "checkout:thank-you") := by
  unfold return_redirect_url
  rw [h]

/-- Witness for C9 at the empty store. -/
theorem C9_pending_message_witness :
    return_redirect_url [] "ORD-1"
      = (UserMessage.pendingConfirmation, "checkout:thank-you") :=
  C9_pending_message [] "ORD-1" (by decide)

/-- C10: a payload lacking the vads_amount key defaults to the string 0,
get_total_incl_tax returns decimal zero, and handle_request still
persists a RETURN record whose amount is zero rather than raising on
the missing field. -/
theorem C10_missing_amount_zero (env : GatewayEnv) (p : Payload) (store : Store)
    (h : pget p "vads_amount" = none) :
    get_total_incl_tax p = some 0
    ∧ (handle_request env p store).1.length = store.length + 1
    ∧ ((handle_request env p store).1.getLast?).map (fun t => (t.mode, t.amount))
      = some (Mode.RETURN, (0 : Rat)) := by
  have hg : get_total_incl_tax p = some 0 := by
    unfold get_total_incl_tax pgetD
    rw [h]
    decide
  have hb : (handle_request env p store).1.length = store.length + 1
      ∧ ((handle_request env p store).1.getLast?).map (fun t => (t.mode, t.amount))
        = some (Mode.RETURN, (0 : Rat)) := by
    rw [handle_request_some env p store 0 hg]
    by_cases hf : env.formValid p = false
    · rw [if_pos hf]
      simp [save_txn, List.getLast?_concat]
    · rw [if_neg hf]
      by_cases hs : env.sigValid p = false
      · rw [if_pos hs]
        simp [save_txn, List.getLast?_concat]
      · rw [if_neg hs]
        split
        · simp [save_txn, List.getLast?_concat]
        · simp [save_txn, List.getLast?_concat]
  exact ⟨hg, hb.1, hb.2⟩

/-- Witness for C10 at a concrete payload without vads_amount. -/
theorem C10_missing_amount_zero_witness :
    get_total_incl_tax [("vads_result", "05")] = some 0
    ∧ (handle_request trivEnv [("vads_result", "05")] []).1.length
      = ([] : Store).length + 1
    ∧ ((handle_request trivEnv [("vads_result", "05")] []).1.getLast?).map
        (fun t => (t.mode, t.amount)) = some (Mode.RETURN, (0 : Rat)) :=
  C10_missing_amount_zero trivEnv [("vads_result", "05")] [] (by decide)

end SystemPay
